import Mathlib

/-!
Verification of the ros2-performance benchmarking harness core against its
specification.  The embedding follows the three source files:

* `performance_test/include/performance_test/performance_node_base.hpp`
  (publisher / subscriber / client / server callbacks of a node),
* `performance_test_factory/include/performance_test_factory/factory.hpp`
  (topology-builder declarations and their default arguments),
* `FastDDS-docker/MultiProcess_SierraNevada/src/mandalay.cpp`
  (a standalone FastDDS replica of the benchmark).

The `Tracker` class (`performance_test/tracker.hpp`) and the bodies of the
`TemplateFactory` member functions are part of the repository but are not among
the given source files; where a claim depends on them, the definitions below
are modelled from the specification's own words and are marked
`Modelled from the spec:` in their doc comments.
-/

namespace RosPerf

/-- Header carried by every benchmark message
(`performance_test_msgs::msg::PerformanceHeader` in
`performance_node_base.hpp`): tracking number, publish frequency, payload
size and timestamp.  Frequency is a float in the source; the claims only ever
copy it around, so it is modelled as a natural number, and timestamps are
naturals as well. -/
structure Header where
  tracking_number : Nat
  frequency : Nat
  size : Nat
  stamp : Nat
deriving DecidableEq

/-- Events emitted by the spec-modelled accumulator `scan`: a loss event
`{endpoint_name, gap, description}` (description omitted, it is free text
derived from the gap) and an out-of-order anomaly event. -/
inductive TrackerEvent where
  | loss (endpoint_name : String) (gap : Nat)
  | out_of_order (endpoint_name : String)
deriving DecidableEq

/-- Modelled from the spec: the `Tracker` accumulator state of
`performance_test/tracker.hpp`, which is not among the given source files
(spec §3 data model: `{count, expected_next_tracking_number, lost_count,
frequency, size, last_value}` plus the publisher-side tracking-number
counter).  The floating-point statistics fields (mean, variance accumulator,
min, max) are not referenced by any claim and are omitted; `received_first`
records whether the accumulator has seen its first sample (spec §4.2 "if this
is the first sample for the endpoint").  -/
structure Tracker where
  node_name : String
  topic_name : String
  count : Nat
  expected_next_tracking_number : Nat
  lost_count : Nat
  received_first : Bool
  frequency_value : Nat
  size_value : Nat
  last_value : Nat
  tracking_number_count : Nat
deriving DecidableEq

/-- Modelled from the spec: a freshly constructed `Tracker(node, topic,
options)` with all counters at zero and no sample seen yet. -/
def Tracker.init (node topic : String) : Tracker :=
  { node_name := node
    topic_name := topic
    count := 0
    expected_next_tracking_number := 0
    lost_count := 0
    received_first := false
    frequency_value := 0
    size_value := 0
    last_value := 0
    tracking_number_count := 0 }

/-- Modelled from the spec: `get_and_increment_tracking_number()`
(`get_and_update_tracking_number` at its call sites in
`performance_node_base.hpp`) — returns the current publisher-side counter and
advances it by one (spec §4.1: "atomically returns the current counter then
advances it by one; used by publishers to stamp outgoing messages"). -/
def Tracker.get_and_update_tracking_number (t : Tracker) : Nat × Tracker :=
  (t.tracking_number_count,
   { t with tracking_number_count := t.tracking_number_count + 1 })

/-- A concrete accumulator state whose first sample has already been seen
(`received_first = true`, all counters still zero); used as input for
concrete evaluations. -/
def seasonedTracker : Tracker :=
  { Tracker.init "node" "topic" with received_first := true }

/-- Modelled from the spec: `Tracker::scan(header, receive_time, sink)`
(spec §4.2).  If this is the first sample, set
`expected_next_tracking_number = tracking_number + 1` and skip gap checking;
else if `tracking_number >= expected_next_tracking_number`, compute
`gap = tracking_number - expected_next_tracking_number`, on `gap > 0` add it
to `lost_count` and emit a loss event, and set
`expected_next_tracking_number = tracking_number + 1`; else record an
out-of-order anomaly event without touching `lost_count`.  Always update
`frequency` and `size` from the header, then record the latency
(`receive_time - send_time`), which advances `count` and `last_value`.
Events handed to the `EventSink` are returned as a list. -/
def Tracker.scan (t : Tracker) (h : Header) (receive_time : Nat) :
    Tracker × List TrackerEvent :=
  let step : Tracker × List TrackerEvent :=
    if t.received_first = false then
      ({ t with
          expected_next_tracking_number := h.tracking_number + 1
          received_first := true }, [])
    else if t.expected_next_tracking_number ≤ h.tracking_number then
      let gap := h.tracking_number - t.expected_next_tracking_number
      if 0 < gap then
        ({ t with
            expected_next_tracking_number := h.tracking_number + 1
            lost_count := t.lost_count + gap },
         [TrackerEvent.loss t.topic_name gap])
      else
        ({ t with expected_next_tracking_number := h.tracking_number + 1 }, [])
    else
      (t, [TrackerEvent.out_of_order t.topic_name])
  let t1 := step.1
  ({ t1 with
      frequency_value := h.frequency
      size_value := h.size
      count := t1.count + 1
      last_value := receive_time - h.stamp }, step.2)

/-- Scan a whole list of headers in order with a fixed receive time,
collecting the accumulator state and every event emitted to the sink. -/
def Tracker.scanList (t : Tracker) (rt : Nat) :
    List Header → Tracker × List TrackerEvent
  | [] => (t, [])
  | h :: hs =>
    let first := t.scan h rt
    let rest := first.1.scanList rt hs
    (rest.1, first.2 ++ rest.2)

/-- A header whose only relevant field is its tracking number. -/
def mkHeader (n : Nat) : Header :=
  { tracking_number := n, frequency := 0, size := 0, stamp := 0 }

/-- The consecutive tracking numbers `s, s+1, ..., s+m-1`. -/
def inOrderFrom (s : Nat) : Nat → List Nat
  | 0 => []
  | m + 1 => s :: inOrderFrom (s + 1) m

/-- Apply a sequence of `scan` operations, each with its own header and
receive time, discarding the emitted events. -/
def Tracker.applyScans (t : Tracker) : List (Header × Nat) → Tracker
  | [] => t
  | (h, rt) :: rest => ((t.scan h rt).1).applyScans rest

/-- `EventsLogger::EventCode` as used by `performance_node_base.hpp`, whose
only directly emitted code is `service_unavailable`
(`_request`, lines 467-472). -/
inductive EventCode where
  | service_unavailable
deriving DecidableEq

/-- `EventsLogger::Event`: `{caller_name, code, description}`. -/
structure Event where
  caller_name : String
  code : EventCode
  description : String
deriving DecidableEq

/-- The state touched by `PerformanceNodeBase::_request` for one client
endpoint: the node-wide `_client_lock`, the client map entry
(`Tracker` and per-client tracking number, `std::get<1>` and `std::get<2>`
of `_clients.at(name)`), whether `_events_logger` is non-null, and the events
written to it.  `sent_requests` (headers handed to `async_send_request`) and
`completed` (number of `_response_received_callback` invocations) are ghost
instrumentation used to count outstanding requests. -/
structure ClientState where
  node_name : String
  service_name : String
  client_lock : Bool
  tracker : Tracker
  tracking_number : Nat
  has_events_logger : Bool
  events : List Event
  sent_requests : List Header
  completed : Nat
deriving DecidableEq

/-- The `service_unavailable` event built by `_request` when
`wait_for_service(1.0s)` fails: caller is `name + "->" + node name`, and the
description reports the service unavailable after 1s. -/
def unavailableEvent (s : ClientState) : Event :=
  { caller_name := s.service_name ++ "->" ++ s.node_name
    code := EventCode.service_unavailable
    description := "[service] " ++ s.service_name ++ " unavailable after 1s" }

/-- `PerformanceNodeBase::_request(name, size)`: if `_client_lock` is set the
call returns immediately; otherwise the lock is taken for the duration of the
call.  If the 1-second `wait_for_service` probe fails, a `service_unavailable`
event is written (when `_events_logger` is non-null), the lock is released
and the call returns without sending.  Otherwise a request header is built
from the stored tracker frequency and the per-client tracking number, handed
to `async_send_request`, the tracking number is incremented and the lock is
released — before any response arrives.  `service_available` stands for the
outcome of the `wait_for_service(1.0s)` probe and `now` for
`m_node_clock->get_clock()->now()`. -/
def clientRequest (service_available : Bool) (now : Nat) (s : ClientState) :
    ClientState :=
  if s.client_lock then s
  else
    -- _client_lock = true for the rest of the call
    if service_available = false then
      let s1 :=
        if s.has_events_logger then
          { s with events := s.events ++ [unavailableEvent s] }
        else s
      { s1 with client_lock := false }
    else
      let request : Header :=
        { tracking_number := s.tracking_number
          frequency := s.tracker.frequency_value
          size := 0
          stamp := now }
      { s with
          sent_requests := s.sent_requests ++ [request]
          tracking_number := s.tracking_number + 1
          client_lock := false }

/-- `PerformanceNodeBase::_response_received_callback(name, request, future)`:
scans the saved request header with the current time into the client's
tracker.  It never touches `_client_lock`.  The statistics events the scan
hands to the logger are not material to any client claim and are dropped
here; the ghost `completed` counter records the completion. -/
def clientResponseReceived (request : Header) (now : Nat) (s : ClientState) :
    ClientState :=
  { s with
      tracker := (s.tracker.scan request now).1
      completed := s.completed + 1 }

/-- A concrete client endpoint state as left by `add_periodic_client`:
lock free, fresh tracker, tracking number `0`, an events logger attached,
nothing sent yet. -/
def initClientState : ClientState :=
  { node_name := "node"
    service_name := "srv"
    client_lock := false
    tracker := Tracker.init "node" "srv"
    tracking_number := 0
    has_events_logger := true
    events := []
    sent_requests := []
    completed := 0 }

/-- A message payload: either a variable-length byte vector
(`std::vector<uint8_t>`, bytes modelled as naturals) or a fixed-layout datum,
represented by its compile-time byte size `sizeof(data)`. -/
inductive MsgData where
  | vec (data : List Nat)
  | fixed (byte_size : Nat)
deriving DecidableEq

/-- `std::vector::resize(size)`: truncate to `size` elements, or pad with
value-initialized (zero) elements. -/
def listResize (data : List Nat) (size : Nat) : List Nat :=
  data.take size ++ List.replicate (size - data.length) 0

/-- `PerformanceNodeBase::resize_msg(data, size)`
(`performance_node_base.hpp` lines 415-432), the two `enable_if` overloads
merged on the payload kind: a `std::vector<uint8_t>` payload is resized to
`size` and `size` is returned; any other payload is untouched and
`sizeof(data)` is returned, the `size` hint being discarded. -/
def resize_msg : MsgData → Nat → MsgData × Nat
  | MsgData.vec data, size => (MsgData.vec (listResize data size), size)
  | MsgData.fixed b, _ => (MsgData.fixed b, b)

/-- State of one publishing endpoint of `PerformanceNodeBase`: its map entry
`_pubs.at(name)` tracker, plus the ghost list of messages handed to
`pub->publish` (header and payload). -/
structure PubState where
  tracker : Tracker
  published : List (Header × MsgData)
deriving DecidableEq

/-- `PerformanceNodeBase::_publish(name, msg_pass_by, size, period)`
(lines 351-413), identical for both pass-by branches: take a tracking number
from the tracker, default-construct a message (`fresh` is the
default-constructed payload), resize it, build the header via
`create_msg_header(publish_time, 1000000/period, tracking_number, msg_size)`,
publish, then store frequency and size in the tracker and add the publish
duration (`pub_time_us`) as a sample. -/
def publishOnce (fresh : MsgData) (size period_us now pub_time_us : Nat)
    (s : PubState) : PubState :=
  let pub_frequency := 1000000 / period_us
  let taken := s.tracker.get_and_update_tracking_number
  let resized := resize_msg fresh size
  let header : Header :=
    { tracking_number := taken.1
      frequency := pub_frequency
      size := resized.2
      stamp := now }
  { tracker :=
      { taken.2 with
          frequency_value := pub_frequency
          size_value := resized.2
          count := taken.2.count + 1
          last_value := pub_time_us }
    published := s.published ++ [(header, resized.1)] }

/-- `m` sequential `_publish` invocations on one endpoint (clock and publish
duration fixed at zero — neither affects tracking numbers). -/
def publishSeq (fresh : MsgData) (size period_us : Nat) (s : PubState) :
    Nat → PubState
  | 0 => s
  | m + 1 => publishSeq fresh size period_us (publishOnce fresh size period_us 0 0 s) m

/-- A publishing endpoint as just created by `add_publisher`: fresh tracker,
nothing published. -/
def initPubState : PubState :=
  { tracker := Tracker.init "node" "topic", published := [] }

/-- `Mandalay::set_msg_size(msg, data, size)` (mandalay.cpp lines 154-169),
the two `enable_if` overloads merged on the payload kind: a vector payload is
resized to `size`; in both overloads — including the fixed-layout one —
`msg.header().size()` is assigned the `size` argument. -/
def mandalay_set_msg_size : MsgData → Nat → MsgData × Nat
  | MsgData.vec data, size => (MsgData.vec (listResize data size), size)
  | MsgData.fixed b, size => (MsgData.fixed b, size)

/-- `Mandalay::fill_msg(msg, tracking_number, period, size, name)`
(mandalay.cpp lines 171-191): stamp tracking number, frequency
`1000.0/period`, run `set_msg_size`, and timestamp with the current time. -/
def mandalayFillMsg (fresh : MsgData) (tracking_number period size now : Nat) :
    Header × MsgData :=
  let r := mandalay_set_msg_size fresh size
  ({ tracking_number := tracking_number
     frequency := 1000 / period
     size := r.2
     stamp := now }, r.1)

/-- `Mandalay::publish(data_writer, period, size, name)` (mandalay.cpp lines
194-219): a loop with a local `tracking_number` starting at `0`, each pass
filling a fresh message with the current number, incrementing it, and writing
the message; `m` is the number of passes before `run_threads` is cleared
(clock fixed at zero).  Returns the messages written. -/
def mandalayPublish (fresh : MsgData) (period size : Nat) :
    Nat → Nat → List (Header × MsgData)
  | _, 0 => []
  | tracking_number, m + 1 =>
    mandalayFillMsg fresh tracking_number period size 0 ::
      mandalayPublish fresh period size (tracking_number + 1) m

/-- `msg_pass_by_t` (`communication.hpp`): `PASS_BY_SHARED_PTR` or
`PASS_BY_UNIQUE_PTR`. -/
inductive MsgPassBy where
  | shared_ptr
  | unique_ptr
deriving DecidableEq

/-- A quality-of-service profile as seen by the factory: either the default
`rmw_qos_profile_default` or some custom profile. -/
inductive QosProfile where
  | rmw_default
  | custom (id : Nat)
deriving DecidableEq

/-- The default-argument values of
`TemplateFactory::add_subscriber_from_strings` (factory.hpp lines 93-99). -/
structure SubscriberFromStringsDefaults where
  msg_pass_by : MsgPassBy
  qos : QosProfile
deriving DecidableEq

def add_subscriber_from_strings_defaults : SubscriberFromStringsDefaults :=
  { msg_pass_by := MsgPassBy.shared_ptr
    qos := QosProfile.rmw_default }

/-- The default-argument values of
`TemplateFactory::add_periodic_publisher_from_strings`
(factory.hpp lines 101-108). -/
structure PeriodicPublisherFromStringsDefaults where
  msg_pass_by : MsgPassBy
  qos : QosProfile
  period_us : Nat
  msg_size : Nat
deriving DecidableEq

def add_periodic_publisher_from_strings_defaults :
    PeriodicPublisherFromStringsDefaults :=
  { msg_pass_by := MsgPassBy.unique_ptr
    qos := QosProfile.rmw_default
    period_us := 10000
    msg_size := 0 }

/-- The default-argument values of
`TemplateFactory::add_periodic_client_from_strings`
(factory.hpp lines 110-115). -/
structure PeriodicClientFromStringsDefaults where
  qos : QosProfile
  period_us : Nat
deriving DecidableEq

def add_periodic_client_from_strings_defaults : PeriodicClientFromStringsDefaults :=
  { qos := QosProfile.rmw_default
    period_us := 10000 }

/-- The default-argument values of `TemplateFactory::add_server_from_strings`
(factory.hpp lines 117-121). -/
structure ServerFromStringsDefaults where
  qos : QosProfile
deriving DecidableEq

def add_server_from_strings_defaults : ServerFromStringsDefaults :=
  { qos := QosProfile.rmw_default }

/-- The endpoint maps of a `PerformanceNodeBase` (transport handles elided):
`_pubs`, `_subs` and `_servers` map a name to its `Tracker`; `_clients` maps
a name to its `Tracker` and per-client tracking number.  The C++ `std::map`
is represented by its entry sequence. -/
structure NodeState where
  pubs : List (String × Tracker)
  subs : List (String × Tracker)
  clients : List (String × Tracker × Nat)
  servers : List (String × Tracker)
deriving DecidableEq

/-- `PerformanceNodeBase::all_trackers` (performance_node_base.hpp lines
263-292): push one `(name, tracker)` pair per subscriber, then one per
client; the loops over `_pubs` and `_servers` are commented out in the
source. -/
def all_trackers (n : NodeState) : List (String × Tracker) :=
  let after_subs := n.subs.foldl (fun acc sub => acc ++ [(sub.1, sub.2)]) []
  n.clients.foldl (fun acc c => acc ++ [(c.1, c.2.1)]) after_subs

/-- `PerformanceNodeBase::pub_trackers` (lines 294-304): one
`(name, tracker)` pair per publisher. -/
def pub_trackers (n : NodeState) : List (String × Tracker) :=
  n.pubs.foldl (fun acc p => acc ++ [(p.1, p.2)]) []

/-- `PerformanceNodeBase::_service_callback(name, request_header, request,
response)` (lines 535-554): the response header takes the request's
frequency, the server tracker's current sample count (`tracker.stat().n()`)
as tracking number and the current clock as stamp — all before the request
header is scanned into the server's tracker; the response's size field is
left default-initialized.  Returns the updated tracker, the response header
and the events the scan handed to the logger. -/
def service_callback (t : Tracker) (request : Header) (now : Nat) :
    Tracker × Header × List TrackerEvent :=
  let response : Header :=
    { tracking_number := t.count
      frequency := request.frequency
      size := 0
      stamp := now }
  let scanned := t.scan request now
  (scanned.1, response, scanned.2)

/-- Little-endian decimal digits of `n` (least significant first), with
`fuel` bounding the recursion; `fuel = n` suffices since the argument is
divided by ten at every step. -/
def digitsFuel : Nat → Nat → List Nat
  | 0, _ => []
  | fuel + 1, n => if n = 0 then [] else n % 10 :: digitsFuel fuel (n / 10)

/-- The value of a little-endian decimal digit list. -/
def decValue : List Nat → Nat
  | [] => 0
  | d :: ds => d + 10 * decValue ds

/-- The numeric value of a decimal digit character. -/
def charVal (c : Char) : Nat :=
  c.toNat - 48

/-- The decimal numeral of `n` as a character list (most significant digit
first), as `std::to_string` renders a non-negative integer. -/
def natChars (n : Nat) : List Char :=
  if n = 0 then [Nat.digitChar 0] else ((digitsFuel n n).map Nat.digitChar).reverse

/-- The numeric value of a most-significant-first decimal character list;
left inverse of `natChars`. -/
def charsVal (l : List Char) : Nat :=
  decValue (l.reverse.map charVal)

/-- Modelled from the spec: the name given to the `id`-th node of the bulk
node-creation helpers — the fixed prefix `"node_"` concatenated with the
decimal rendering of the integer (factory.hpp lines 43-47: "These nodes will
have names as node_X, node_Y where X, Y, etc, are all the numbers spanning
from start_id to end_id"; ids modelled as naturals). -/
def nodeName (id : Nat) : String :=
  "node_" ++ String.mk (natChars id)

/-- Modelled from the spec: the node names produced by
`TemplateFactory::create_subscriber_nodes(start_id, end_id, ...)`, whose
body is not among the given source files — one node per integer in
`[start_id, end_id]`, named by `nodeName` (spec §4.3 naming convention for
bulk node creation). -/
def create_subscriber_nodes (start_id end_id : Nat) : List String :=
  (List.range (end_id + 1 - start_id)).map (fun k => nodeName (start_id + k))

theorem scanList_append (rt : Nat) (l1 : List Header) :
    ∀ (t : Tracker) (l2 : List Header),
      t.scanList rt (l1 ++ l2) =
        (((t.scanList rt l1).1.scanList rt l2).1,
         (t.scanList rt l1).2 ++ ((t.scanList rt l1).1.scanList rt l2).2) := by
  induction l1 with
  | nil => intro t l2; simp [Tracker.scanList]
  | cons h hs ih =>
    intro t l2
    simp [Tracker.scanList, ih]

theorem scan_expected_step (rt : Nat) (t : Tracker)
    (ht : t.received_first = true) :
    t.scan (mkHeader t.expected_next_tracking_number) rt =
      ({ t with
          expected_next_tracking_number := t.expected_next_tracking_number + 1
          frequency_value := 0
          size_value := 0
          count := t.count + 1
          last_value := rt }, []) := by
  simp [Tracker.scan, mkHeader, ht]

theorem scanList_consecutive (rt : Nat) (m : Nat) :
    ∀ (s : Nat) (t : Tracker), t.received_first = true →
      t.expected_next_tracking_number = s →
      (t.scanList rt ((inOrderFrom s m).map mkHeader)).1.expected_next_tracking_number
          = s + m ∧
      (t.scanList rt ((inOrderFrom s m).map mkHeader)).1.lost_count = t.lost_count ∧
      (t.scanList rt ((inOrderFrom s m).map mkHeader)).1.received_first = true ∧
      (t.scanList rt ((inOrderFrom s m).map mkHeader)).1.topic_name = t.topic_name ∧
      (t.scanList rt ((inOrderFrom s m).map mkHeader)).2 = [] := by
  induction m with
  | zero =>
    intro s t ht he
    exact ⟨he, rfl, ht, rfl, rfl⟩
  | succ m ih =>
    intro s t ht he
    have hs : t.scan (mkHeader s) rt =
        ({ t with
            expected_next_tracking_number := s + 1
            frequency_value := 0
            size_value := 0
            count := t.count + 1
            last_value := rt }, []) := by
      subst he
      exact scan_expected_step rt t ht
    rw [show inOrderFrom s (m + 1) = s :: inOrderFrom (s + 1) m from rfl]
    simp only [List.map_cons, Tracker.scanList, hs, List.nil_append]
    have key := ih (s + 1)
      ({ t with
          expected_next_tracking_number := s + 1
          frequency_value := 0
          size_value := 0
          count := t.count + 1
          last_value := rt }) ht rfl
    exact ⟨key.1.trans (by omega), key.2.1, key.2.2.1, key.2.2.2.1, key.2.2.2.2⟩

theorem scan_gap_step (rt k : Nat) (t : Tracker)
    (ht : t.received_first = true) (hk : 0 < k) :
    t.scan (mkHeader (t.expected_next_tracking_number + k)) rt =
      ({ t with
          expected_next_tracking_number := t.expected_next_tracking_number + k + 1
          lost_count := t.lost_count + k
          frequency_value := 0
          size_value := 0
          count := t.count + 1
          last_value := rt },
       [TrackerEvent.loss t.topic_name k]) := by
  simp [Tracker.scan, mkHeader, ht, Nat.add_sub_cancel_left, hk]

theorem scanList_single_gap (rt b k : Nat) (t : Tracker)
    (ht : t.received_first = true) (hk : 0 < k) :
    (t.scanList rt
        ((inOrderFrom (t.expected_next_tracking_number + k) (b + 1)).map mkHeader)).1.lost_count
        = t.lost_count + k ∧
    (t.scanList rt
        ((inOrderFrom (t.expected_next_tracking_number + k) (b + 1)).map mkHeader)).2
        = [TrackerEvent.loss t.topic_name k] := by
  rw [show inOrderFrom (t.expected_next_tracking_number + k) (b + 1) =
      (t.expected_next_tracking_number + k) ::
        inOrderFrom (t.expected_next_tracking_number + k + 1) b from rfl]
  simp only [List.map_cons, Tracker.scanList, scan_gap_step rt k t ht hk]
  have key := scanList_consecutive rt b (t.expected_next_tracking_number + k + 1)
    ({ t with
        expected_next_tracking_number := t.expected_next_tracking_number + k + 1
        lost_count := t.lost_count + k
        frequency_value := 0
        size_value := 0
        count := t.count + 1
        last_value := rt }) ht rfl
  refine ⟨key.2.1, ?_⟩
  rw [key.2.2.2.2, List.append_nil]

/-- C1: for an accumulator that has already seen at least one sample (and has
lost nothing so far), scanning a tracking-number sequence with a single gap of
size `k` — an in-order run `e, e+1, ..., e+a` followed by a jump to
`e+a+1+k` and a further in-order run — leaves `lost_count = k` and emits
exactly one loss event, with gap value `k`, to the sink; scanning just the
in-order run leaves `lost_count = 0` and emits nothing. -/
theorem tracker_scan_single_gap_lost_count (rt a b k : Nat) (t : Tracker)
    (ht : t.received_first = true) (hl : t.lost_count = 0) (hk : 0 < k) :
    ((t.scanList rt
        ((inOrderFrom t.expected_next_tracking_number (a + 1) ++
          inOrderFrom (t.expected_next_tracking_number + (a + 1) + k) (b + 1)).map
            mkHeader)).1.lost_count = k ∧
     (t.scanList rt
        ((inOrderFrom t.expected_next_tracking_number (a + 1) ++
          inOrderFrom (t.expected_next_tracking_number + (a + 1) + k) (b + 1)).map
            mkHeader)).2 = [TrackerEvent.loss t.topic_name k]) ∧
    ((t.scanList rt
        ((inOrderFrom t.expected_next_tracking_number (a + 1)).map
          mkHeader)).1.lost_count = 0 ∧
     (t.scanList rt
        ((inOrderFrom t.expected_next_tracking_number (a + 1)).map
          mkHeader)).2 = []) := by
  have h1 := scanList_consecutive rt (a + 1) t.expected_next_tracking_number t ht rfl
  refine ⟨?_, h1.2.1.trans hl, h1.2.2.2.2⟩
  rw [List.map_append, scanList_append]
  have hgap := scanList_single_gap rt b k
    (t.scanList rt
      ((inOrderFrom t.expected_next_tracking_number (a + 1)).map mkHeader)).1
    h1.2.2.1 hk
  rw [h1.1] at hgap
  constructor
  · exact hgap.1.trans (by rw [h1.2.1, hl, Nat.zero_add])
  · rw [h1.2.2.2.2, List.nil_append, hgap.2, h1.2.2.2.1]

/-- Witness for C1 at `seasonedTracker`, `a = 2`, `b = 1`, `k = 3` (the
spec's example sequence `0,1,2,6,7`). -/
theorem tracker_scan_single_gap_lost_count_witness :
    (seasonedTracker.received_first = true ∧ seasonedTracker.lost_count = 0 ∧ 0 < 3) ∧
    ((seasonedTracker.scanList 0
        ((inOrderFrom 0 3 ++ inOrderFrom (0 + 3 + 3) 2).map mkHeader)).1.lost_count = 3 ∧
      (seasonedTracker.scanList 0
        ((inOrderFrom 0 3 ++ inOrderFrom (0 + 3 + 3) 2).map mkHeader)).2
          = [TrackerEvent.loss "topic" 3]) ∧
    ((seasonedTracker.scanList 0
        ((inOrderFrom 0 3).map mkHeader)).1.lost_count = 0 ∧
      (seasonedTracker.scanList 0
        ((inOrderFrom 0 3).map mkHeader)).2 = []) :=
  ⟨⟨rfl, rfl, by decide⟩,
    tracker_scan_single_gap_lost_count 0 2 1 3 seasonedTracker rfl rfl (by decide)⟩

theorem scan_step_mono (t : Tracker) (h : Header) (rt : Nat)
    (hinv : t.received_first = false → t.expected_next_tracking_number = 0) :
    t.expected_next_tracking_number ≤ (t.scan h rt).1.expected_next_tracking_number ∧
    t.lost_count ≤ (t.scan h rt).1.lost_count ∧
    (t.scan h rt).1.received_first = true := by
  by_cases hf : t.received_first = false
  · have h0 := hinv hf
    simp [Tracker.scan, hf, h0]
  · have hf' : t.received_first = true := by
      revert hf
      cases t.received_first <;> simp
    by_cases hle : t.expected_next_tracking_number ≤ h.tracking_number
    · by_cases hgap : 0 < h.tracking_number - t.expected_next_tracking_number
      · refine ⟨?_, ?_, ?_⟩ <;> simp [Tracker.scan, hf', hle, hgap]
        omega
      · refine ⟨?_, ?_, ?_⟩ <;> simp [Tracker.scan, hf', hle, hgap]
        omega
    · refine ⟨?_, ?_, ?_⟩ <;> simp [Tracker.scan, hf', hle]

theorem applyScans_mono (l : List (Header × Nat)) :
    ∀ t : Tracker, (t.received_first = false → t.expected_next_tracking_number = 0) →
      t.expected_next_tracking_number ≤ (t.applyScans l).expected_next_tracking_number ∧
      t.lost_count ≤ (t.applyScans l).lost_count ∧
      ((t.applyScans l).received_first = false →
        (t.applyScans l).expected_next_tracking_number = 0) := by
  induction l with
  | nil =>
    intro t hinv
    exact ⟨Nat.le_refl _, Nat.le_refl _, hinv⟩
  | cons p rest ih =>
    intro t hinv
    obtain ⟨h, rt⟩ := p
    have step := scan_step_mono t h rt hinv
    have inv2 : (t.scan h rt).1.received_first = false →
        (t.scan h rt).1.expected_next_tracking_number = 0 := by
      intro hfalse
      rw [step.2.2] at hfalse
      cases hfalse
    have key := ih (t.scan h rt).1 inv2
    exact ⟨Nat.le_trans step.1 key.1, Nat.le_trans step.2.1 key.2.1, key.2.2⟩

/-- C7: for every accumulator reachable from its initial state by any
sequence of `scan` operations, a further sequence of scans never decreases
`expected_next_tracking_number` or `lost_count`: both are monotone
non-decreasing for the lifetime of the endpoint. -/
theorem tracker_scan_monotone (node topic : String) (l1 l2 : List (Header × Nat)) :
    ((Tracker.init node topic).applyScans l1).expected_next_tracking_number ≤
      (((Tracker.init node topic).applyScans l1).applyScans l2).expected_next_tracking_number ∧
    ((Tracker.init node topic).applyScans l1).lost_count ≤
      (((Tracker.init node topic).applyScans l1).applyScans l2).lost_count := by
  have h1 := applyScans_mono l1 (Tracker.init node topic) (fun _ => rfl)
  have h2 := applyScans_mono l2 ((Tracker.init node topic).applyScans l1) h1.2.2
  exact ⟨h2.1, h2.2.1⟩

/-- C2 counterexample: from a lock-free client state with the server
available, two consecutive periodic `_request` invocations each send a
request while none has completed — after the first cycle a request is
outstanding (one sent, zero completed) yet `_client_lock` is already
released, and the second cycle is not a no-op: it sends a second concurrently
outstanding request. -/
theorem client_lock_two_outstanding_requests :
    (clientRequest true 0 initClientState).sent_requests.length = 1 ∧
    (clientRequest true 0 initClientState).completed = 0 ∧
    (clientRequest true 0 initClientState).client_lock = false ∧
    (clientRequest true 1 (clientRequest true 0 initClientState)).sent_requests.length = 2 ∧
    (clientRequest true 1 (clientRequest true 0 initClientState)).completed = 0 := by
  decide

/-- C2 amended: the node-wide `_client_lock` guards only a single `_request`
invocation, not an outstanding request.  An invocation entered with the lock
held is a no-op; every invocation entered with the lock free releases the
lock before returning, on both the send path and the 1-second
availability-probe timeout path; and completing a request
(`_response_received_callback`) never touches the lock. -/
theorem client_lock_single_invocation (avail : Bool) (now : Nat) (h : Header)
    (s : ClientState) :
    clientRequest avail now { s with client_lock := true } =
        { s with client_lock := true } ∧
    (clientRequest avail now { s with client_lock := false }).client_lock = false ∧
    (clientResponseReceived h now s).client_lock = s.client_lock := by
  refine ⟨by simp [clientRequest], ?_, rfl⟩
  simp only [clientRequest]
  cases avail <;> cases hsl : s.has_events_logger <;> simp [hsl]

/-- C3: a client endpoint whose server is unreachable (the 1-second
`wait_for_service` probe fails), with the events logger attached and the lock
free: one polling cycle appends exactly one `service_unavailable` event,
sends no request, and leaves `_client_lock` released, so a second consecutive
cycle appends a second event. -/
theorem client_unavailable_one_event_per_cycle (now1 now2 : Nat) (s : ClientState)
    (hlock : s.client_lock = false) (hlog : s.has_events_logger = true) :
    (clientRequest false now1 s).events = s.events ++ [unavailableEvent s] ∧
    (clientRequest false now1 s).sent_requests = s.sent_requests ∧
    (clientRequest false now1 s).client_lock = false ∧
    (clientRequest false now2 (clientRequest false now1 s)).events =
      s.events ++ [unavailableEvent s, unavailableEvent s] := by
  simp [clientRequest, hlock, hlog, unavailableEvent]

/-- Witness for C3 at `initClientState` and two consecutive cycles. -/
theorem client_unavailable_one_event_per_cycle_witness :
    (clientRequest false 0 initClientState).events =
        initClientState.events ++ [unavailableEvent initClientState] ∧
    (clientRequest false 0 initClientState).sent_requests =
        initClientState.sent_requests ∧
    (clientRequest false 0 initClientState).client_lock = false ∧
    (clientRequest false 1 (clientRequest false 0 initClientState)).events =
      initClientState.events ++
        [unavailableEvent initClientState, unavailableEvent initClientState] :=
  client_unavailable_one_event_per_cycle 0 1 initClientState rfl rfl

theorem publishSeq_tracking_numbers (fresh : MsgData) (size p : Nat) :
    ∀ (m : Nat) (s : PubState),
      (publishSeq fresh size p s m).published.map (fun x => x.1.tracking_number) =
        s.published.map (fun x => x.1.tracking_number) ++
          (List.range m).map (fun i => s.tracker.tracking_number_count + i) := by
  intro m
  induction m with
  | zero =>
    intro s
    simp [publishSeq]
  | succ m ih =>
    intro s
    rw [show publishSeq fresh size p s (m + 1) =
        publishSeq fresh size p (publishOnce fresh size p 0 0 s) m from rfl,
      ih (publishOnce fresh size p 0 0 s)]
    simp only [publishOnce, Tracker.get_and_update_tracking_number, List.map_append,
      List.append_assoc, List.map_cons, List.map_nil]
    congr 1
    rw [List.range_succ_eq_map, List.map_cons, List.map_map]
    simp only [Nat.add_zero, List.cons_append, List.nil_append]
    congr 1
    apply List.map_congr_left
    intro i _
    simp [Function.comp]
    omega

theorem mandalayPublish_tracking_numbers (fresh : MsgData) (p size : Nat) :
    ∀ (m c : Nat),
      (mandalayPublish fresh p size c m).map (fun x => x.1.tracking_number) =
        (List.range m).map (fun i => c + i) := by
  intro m
  induction m with
  | zero =>
    intro c
    simp [mandalayPublish]
  | succ m ih =>
    intro c
    rw [show mandalayPublish fresh p size c (m + 1) =
        mandalayFillMsg fresh c p size 0 :: mandalayPublish fresh p size (c + 1) m
      from rfl]
    rw [List.map_cons, ih (c + 1), List.range_succ_eq_map, List.map_cons, List.map_map]
    simp only [Nat.add_zero, mandalayFillMsg]
    congr 1
    apply List.map_congr_left
    intro i _
    simp [Function.comp]
    omega

/-- C4: `m` sequential publish invocations on one endpoint stamp the outgoing
message headers with tracking numbers `0, 1, ..., m-1` in that order, each
generated exactly once per outgoing message — both for
`PerformanceNodeBase::_publish` (via the tracker's counter) and for
`Mandalay::publish` (via its loop-local counter). -/
theorem publish_tracking_numbers_zero_to_m (fresh : MsgData) (size p m : Nat) :
    (publishSeq fresh size p initPubState m).published.map
        (fun x => x.1.tracking_number) = List.range m ∧
    (mandalayPublish fresh p size 0 m).map
        (fun x => x.1.tracking_number) = List.range m := by
  constructor
  · rw [publishSeq_tracking_numbers fresh size p m initPubState]
    simp [initPubState, Tracker.init]
  · rw [mandalayPublish_tracking_numbers fresh p size m 0]
    simp

/-- C5 counterexample: `Mandalay::set_msg_size` on a fixed-layout payload
(e.g. `Stamped12Float32`, 48 data bytes) with size hint `7` reports `7` —
the hint — in the message header, not the payload's fixed size `48`, so the
claim "for fixed-layout payloads the hint is ignored and the reported size
equals the fixed size" fails on `Mandalay::set_msg_size`. -/
theorem mandalay_fixed_size_reports_hint :
    (mandalay_set_msg_size (MsgData.fixed 48) 7).2 = 7 ∧
    ¬ (mandalay_set_msg_size (MsgData.fixed 48) 7).2 = 48 := by
  decide

/-- C5 amended: for a variable-length byte-vector payload both
`PerformanceNodeBase::resize_msg` and `Mandalay::set_msg_size` resize the
payload to exactly the size hint and report the hint as the size; for a
fixed-layout payload `PerformanceNodeBase::resize_msg` ignores the hint and
reports the payload's fixed size (`sizeof(data)`), whereas
`Mandalay::set_msg_size` leaves the payload untouched but writes the hint —
not the fixed size — into the message header. -/
theorem resize_msg_size_reporting (data : List Nat) (b hint hint2 : Nat) :
    ((resize_msg (MsgData.vec data) hint).1 = MsgData.vec (listResize data hint) ∧
     (listResize data hint).length = hint ∧
     (resize_msg (MsgData.vec data) hint).2 = hint) ∧
    ((resize_msg (MsgData.fixed b) hint).2 = b ∧
     resize_msg (MsgData.fixed b) hint = resize_msg (MsgData.fixed b) hint2) ∧
    ((mandalay_set_msg_size (MsgData.vec data) hint).1 =
        MsgData.vec (listResize data hint) ∧
     (mandalay_set_msg_size (MsgData.vec data) hint).2 = hint ∧
     (mandalay_set_msg_size (MsgData.fixed b) hint).1 = MsgData.fixed b ∧
     (mandalay_set_msg_size (MsgData.fixed b) hint).2 = hint) := by
  refine ⟨⟨rfl, ?_, rfl⟩, ⟨rfl, rfl⟩, rfl, rfl, rfl, rfl⟩
  simp [listResize]
  omega

/-- C6 counterexample: the factory's default pass-by mode for periodic
publishers is `PASS_BY_UNIQUE_PTR`, not the shared-ownership mode the claim
states for all endpoint kinds alike. -/
theorem factory_publisher_default_pass_by :
    add_periodic_publisher_from_strings_defaults.msg_pass_by = MsgPassBy.unique_ptr ∧
    ¬ add_periodic_publisher_from_strings_defaults.msg_pass_by = MsgPassBy.shared_ptr := by
  decide

/-- C6 amended: the factory defaults for omitted optional fields are
quality-of-service = default profile for all four endpoint kinds; pass-by =
shared-ownership for subscribers but exclusive ownership (`unique_ptr`) for
periodic publishers; payload size = 0 and period = 10 ms for periodic
publishers; period = 10 ms for periodic clients (which take no size
argument); servers take only the quality-of-service default. -/
theorem factory_from_strings_defaults :
    (add_subscriber_from_strings_defaults.qos = QosProfile.rmw_default ∧
     add_subscriber_from_strings_defaults.msg_pass_by = MsgPassBy.shared_ptr) ∧
    (add_periodic_publisher_from_strings_defaults.qos = QosProfile.rmw_default ∧
     add_periodic_publisher_from_strings_defaults.msg_pass_by = MsgPassBy.unique_ptr ∧
     add_periodic_publisher_from_strings_defaults.period_us = 10000 ∧
     add_periodic_publisher_from_strings_defaults.msg_size = 0) ∧
    (add_periodic_client_from_strings_defaults.qos = QosProfile.rmw_default ∧
     add_periodic_client_from_strings_defaults.period_us = 10000) ∧
    add_server_from_strings_defaults.qos = QosProfile.rmw_default := by
  decide

theorem foldl_push_eq_map {α β : Type} (f : α → β) (l : List α) :
    ∀ init : List β,
      l.foldl (fun acc x => acc ++ [f x]) init = init ++ l.map f := by
  induction l with
  | nil => intro init; simp
  | cons x xs ih =>
    intro init
    simp [List.foldl_cons, ih (init ++ [f x])]

/-- C9: `all_trackers` returns exactly one `(name, tracker)` pair per
subscriber followed by one per client, and contains no publisher or server
trackers; publisher trackers are reachable only through the separate
`pub_trackers`, which returns exactly one pair per publisher. -/
theorem all_trackers_subs_then_clients (n : NodeState) :
    all_trackers n = n.subs ++ n.clients.map (fun c => (c.1, c.2.1)) ∧
    (all_trackers n).length = n.subs.length + n.clients.length ∧
    pub_trackers n = n.pubs := by
  have h1 : all_trackers n = n.subs ++ n.clients.map (fun c => (c.1, c.2.1)) := by
    simp only [all_trackers, foldl_push_eq_map, List.nil_append]
    simp
  refine ⟨h1, ?_, ?_⟩
  · rw [h1]
    simp
  · simp only [pub_trackers, foldl_push_eq_map, List.nil_append]
    simp

theorem scan_count_succ (t : Tracker) (h : Header) (rt : Nat) :
    (t.scan h rt).1.count = t.count + 1 := by
  simp only [Tracker.scan]
  split
  · rfl
  · split
    · split <;> rfl
    · rfl

/-- C10: for every request handled by a server endpoint, the response
header's frequency equals the incoming request header's frequency, and its
tracking number equals the number of samples the server's tracker had
recorded before this request was scanned — the scan then raises the count by
one, so the value is the pre-scan count, not an independent per-response
counter. -/
theorem service_callback_response_header (t : Tracker) (request : Header)
    (now : Nat) :
    (service_callback t request now).2.1.frequency = request.frequency ∧
    (service_callback t request now).2.1.tracking_number = t.count ∧
    (service_callback t request now).1.count = t.count + 1 :=
  ⟨rfl, rfl, scan_count_succ t request now⟩

theorem decValue_digitsFuel :
    ∀ (fuel n : Nat), n ≤ fuel → decValue (digitsFuel fuel n) = n := by
  intro fuel
  induction fuel with
  | zero =>
    intro n hn
    simp [digitsFuel, decValue, Nat.le_zero.mp hn]
  | succ f ih =>
    intro n hn
    by_cases h0 : n = 0
    · simp [digitsFuel, h0, decValue]
    · have hdiv : n / 10 ≤ f := by
        have := Nat.div_lt_self (Nat.pos_of_ne_zero h0) (by omega : 1 < 10)
        omega
      simp only [digitsFuel, h0, if_false, decValue, ih (n / 10) hdiv]
      omega

theorem digitsFuel_lt_ten :
    ∀ (fuel n d : Nat), d ∈ digitsFuel fuel n → d < 10 := by
  intro fuel
  induction fuel with
  | zero =>
    intro n d hd
    simp [digitsFuel] at hd
  | succ f ih =>
    intro n d hd
    by_cases h0 : n = 0
    · simp [digitsFuel, h0] at hd
    · simp only [digitsFuel, h0, if_false, List.mem_cons] at hd
      rcases hd with h | h
      · omega
      · exact ih (n / 10) d h

theorem charVal_digitChar : ∀ d : Nat, d < 10 → charVal (Nat.digitChar d) = d := by
  decide

theorem charsVal_natChars (n : Nat) : charsVal (natChars n) = n := by
  by_cases h0 : n = 0
  · subst h0
    decide
  · simp only [natChars, h0, if_false, charsVal, List.reverse_reverse, List.map_map]
    have hmap : (digitsFuel n n).map (charVal ∘ Nat.digitChar) =
        (digitsFuel n n).map id :=
      List.map_congr_left (fun d hd => charVal_digitChar d (digitsFuel_lt_ten n n d hd))
    rw [hmap, List.map_id, decValue_digitsFuel n n (Nat.le_refl n)]

theorem nodeName_inj (i j : Nat) (h : nodeName i = nodeName j) : i = j := by
  have hd : "node_".data ++ natChars i = "node_".data ++ natChars j :=
    congrArg String.data h
  have hchars : natChars i = natChars j := List.append_cancel_left hd
  have hv := congrArg charsVal hchars
  rw [charsVal_natChars, charsVal_natChars] at hv
  exact hv

/-- C8: a bulk node-creation call over `[start_id, end_id]` with
`start_id ≤ end_id` produces exactly `end_id - start_id + 1` nodes, whose
names are exactly the fixed prefix concatenated with each integer of the
range, and no two nodes of the call share a name. -/
theorem create_subscriber_nodes_names (s e : Nat) (hse : s ≤ e) :
    (create_subscriber_nodes s e).length = e - s + 1 ∧
    (∀ name, name ∈ create_subscriber_nodes s e ↔
       ∃ i, s ≤ i ∧ i ≤ e ∧ name = nodeName i) ∧
    (create_subscriber_nodes s e).Nodup := by
  refine ⟨?_, ?_, ?_⟩
  · simp only [create_subscriber_nodes, List.length_map, List.length_range]
    omega
  · intro name
    simp only [create_subscriber_nodes, List.mem_map, List.mem_range]
    constructor
    · rintro ⟨k, hk, rfl⟩
      exact ⟨s + k, by omega, by omega, rfl⟩
    · rintro ⟨i, hsi, hie, rfl⟩
      refine ⟨i - s, by omega, ?_⟩
      rw [Nat.add_sub_cancel' hsi]
  · exact List.Nodup.map
      (fun a b hab => by
        have := nodeName_inj _ _ hab
        omega)
      (List.nodup_range _)

/-- Witness for C8 at the range `[3, 5]`. -/
theorem create_subscriber_nodes_names_witness :
    3 ≤ 5 ∧
    ((create_subscriber_nodes 3 5).length = 5 - 3 + 1 ∧
     (∀ name, name ∈ create_subscriber_nodes 3 5 ↔
        ∃ i, 3 ≤ i ∧ i ≤ 5 ∧ name = nodeName i) ∧
     (create_subscriber_nodes 3 5).Nodup) :=
  ⟨by decide, create_subscriber_nodes_names 3 5 (by decide)⟩

end RosPerf
